import Mathlib

/-!
Shallow embedding of `scripts/measurement_update_likelihood_field.py`
(likelihood-field measurement update for a particle filter), together with
theorems settling the specification claims about it.

Python floats are modelled as real numbers.  The external helpers that the
script imports but whose code is not part of this repository
(`tf.transformations.euler_from_quaternion`, `tf.transformations.quaternion_from_euler`,
`likelihood_field.LikelihoodField.get_closest_obstacle_distance`) are taken as
parameters of the embedded functions: `yaw` extracts a heading angle from a
quaternion, `qfe` builds a quaternion from Euler angles, and `lf` is the
closest-obstacle-distance lookup of the likelihood field.
-/

namespace MeasurementUpdateModel

/-- Model of `geometry_msgs.msg.Point` as used by the script: a position. -/
structure Pt where
  x : ℝ
  y : ℝ
  z : ℝ

/-- Model of `geometry_msgs.msg.Quaternion` as used by the script: an orientation. -/
structure Quat where
  x : ℝ
  y : ℝ
  z : ℝ
  w : ℝ

/-- Model of `geometry_msgs.msg.Pose`: position plus orientation. -/
structure RobotPose where
  position : Pt
  orientation : Quat

/-- The script's `Particle` class (lines 26-38): a pose and a weight `w`. -/
structure Particle where
  pose : RobotPose
  w : ℝ

/-- One laser beam as described by the scan message: a bearing angle relative
to the carrier's heading, a measured range, and a validity flag. -/
structure Beam where
  bearing : ℝ
  range : ℝ
  valid : Bool

/-- Model of `sensor_msgs.msg.LaserScan` as consumed by the script: the script only
ever reads `data.ranges[i]`. -/
structure Scan where
  beams : List Beam

/-- The value `data.ranges[i]` read by the script at beam index `i`
(total model: out-of-range indices give 0; the script never reaches a read). -/
noncomputable def Scan.rangeAt (data : Scan) (i : ℕ) : ℝ :=
  ((data.beams[i]?).map Beam.range).getD 0

/-- Source lines 18-23:
`compute_prob_zero_centered_gaussian(dist, sd)` returns
`(1.0 / (sd * math.sqrt(2 * math.pi))) * math.exp((-math.pow(dist, 2)) / (2 * math.pow(sd, 2)))`. -/
noncomputable def compute_prob_zero_centered_gaussian (dist sd : ℝ) : ℝ :=
  (1.0 / (sd * Real.sqrt (2 * Real.pi))) *
    Real.exp ((-(dist ^ 2)) / (2 * sd ^ 2))

/-- Source line 149: `scan_end_x = particle_x + data.ranges[scan_direction] *
np.cos(particle_theta + scan_direction)`.  Note that the integer beam index
`scan_direction` itself is added to the heading (as an angle in radians). -/
noncomputable def scan_end_x (particle_x particle_theta r : ℝ) (scan_direction : ℕ) : ℝ :=
  particle_x + r * Real.cos (particle_theta + scan_direction)

/-- Source line 150: `scan_end_y = particle_y + data.ranges[scan_direction] *
np.sin(particle_theta + scan_direction)`. -/
noncomputable def scan_end_y (particle_y particle_theta r : ℝ) (scan_direction : ℕ) : ℝ :=
  particle_y + r * Real.sin (particle_theta + scan_direction)

/-- One step of the inner loop of `robot_scan_received` (source lines
149-153) for the particle at hand: the hypothesized beam endpoint is computed
from the particle's position and heading (`particle_theta`, extracted by the
external `euler_from_quaternion`, modelled by `yaw`), the likelihood field is
queried there (`dist`, line 151), and the Gaussian likelihood of `dist` with
standard deviation `0.1` (line 153) is the factor multiplied into `q`. -/
noncomputable def beamDensity (yaw : Quat → ℝ) (lf : ℝ → ℝ → ℝ)
    (ranges : ℕ → ℝ) (particle : Particle) (scan_direction : ℕ) : ℝ :=
  let particle_x := particle.pose.position.x
  let particle_y := particle.pose.position.y
  let particle_theta := yaw particle.pose.orientation
  let dist := lf
    (scan_end_x particle_x particle_theta (ranges scan_direction) scan_direction)
    (scan_end_y particle_y particle_theta (ranges scan_direction) scan_direction)
  compute_prob_zero_centered_gaussian dist 0.1

/-- The body of the per-particle loop of `robot_scan_received`
(source lines 139-155), for an index collection `idxs` iterated by the inner
`for scan_direction in ...` loop: starting from `q = 1.0` (line 147), each
iterated beam index multiplies `q` by its `beamDensity` factor, and finally
`particle.w = q` (line 155). -/
noncomputable def updateParticleWeight (yaw : Quat → ℝ) (lf : ℝ → ℝ → ℝ)
    (ranges : ℕ → ℝ) (idxs : List ℕ) (particle : Particle) : Particle :=
  let q := idxs.foldl
    (fun q scan_direction => q * beamDensity yaw lf ranges particle scan_direction)
    1.0
  { particle with w := q }

/-- The outer `for particle in self.particle_cloud` loop of
`robot_scan_received` (source lines 138-155), as it would run with the inner
loop iterating `idxs`: each particle of the cloud is rescored in place. -/
noncomputable def scorePass (yaw : Quat → ℝ) (lf : ℝ → ℝ → ℝ)
    (ranges : ℕ → ℝ) (idxs : List ℕ) (cloud : List Particle) : List Particle :=
  cloud.map (updateParticleWeight yaw lf ranges idxs)

/-- A Python runtime value, as far as the model needs to distinguish them:
`range(n)` objects versus everything else. -/
inductive PyVal
  | intRange (n : ℕ)
  | obj
deriving DecidableEq

/-- A Python runtime error raised by the modelled method. -/
inductive PyError
  | nameError (name : String)
  | typeError
deriving DecidableEq

/-- The names bound at module level of the script (imports at lines 3-15,
and the definitions at lines 18, 26, 41). -/
def moduleScope : List (String × PyVal) :=
  [("rospy", PyVal.obj), ("PoseStamped", PyVal.obj),
   ("PoseWithCovarianceStamped", PyVal.obj), ("PoseArray", PyVal.obj),
   ("Pose", PyVal.obj), ("Point", PyVal.obj), ("Quaternion", PyVal.obj),
   ("GetMap", PyVal.obj), ("OccupancyGrid", PyVal.obj),
   ("LaserScan", PyVal.obj), ("Header", PyVal.obj), ("String", PyVal.obj),
   ("LikelihoodField", PyVal.obj), ("math", PyVal.obj), ("np", PyVal.obj),
   ("quaternion_from_euler", PyVal.obj), ("euler_from_quaternion", PyVal.obj),
   ("compute_prob_zero_centered_gaussian", PyVal.obj),
   ("Particle", PyVal.obj), ("LikelihoodFieldMeasurementUpdate", PyVal.obj)]

/-- The names visible when line 148's `for scan_direction in
cardinal_directions_idxs` resolves its iterable: the local names assigned in
`robot_scan_received` up to that point (the parameters `self` and `data`,
`direction_idxs = range(360)` from line 132, and the per-particle locals of
lines 138-147), followed by the module-level scope. -/
def beamLoopScope : List (String × PyVal) :=
  [("self", PyVal.obj), ("data", PyVal.obj),
   ("direction_idxs", PyVal.intRange 360), ("particle", PyVal.obj),
   ("particle_x", PyVal.obj), ("particle_y", PyVal.obj),
   ("particle_theta", PyVal.obj), ("q", PyVal.obj)] ++ moduleScope

/-- The names the body of `robot_scan_received` (source lines 126-155)
reads (loads), as opposed to assigns. -/
def robotScanReceivedLoads : List String :=
  ["self", "range", "particle", "euler_from_quaternion",
   "cardinal_directions_idxs", "data", "np", "particle_x", "particle_y",
   "particle_theta", "scan_direction", "q",
   "compute_prob_zero_centered_gaussian", "dist"]

/-- The mutable node state that `robot_scan_received` can read or write:
`self.initialized` (line 47/70) and `self.particle_cloud` (line 66). -/
structure NodeState where
  initialized : Bool
  particle_cloud : List Particle

/-- The method `robot_scan_received` of `LikelihoodFieldMeasurementUpdate`
(source lines 126-155).  Returns the raised Python error (if any) together
with the node state after the call.  Control flow:
line 129 returns early while uninitialized; the outer loop (line 138) does
nothing on an empty cloud; otherwise the first iteration evaluates the inner
loop's iterable by looking up the name `cardinal_directions_idxs` (line 148)
in the scope in force there — an unbound name raises `NameError` before any
weight is assigned, a bound `range` object would drive `scorePass`, and a
bound non-iterable would raise `TypeError`. -/
noncomputable def robot_scan_received (yaw : Quat → ℝ) (lf : ℝ → ℝ → ℝ)
    (s : NodeState) (data : Scan) : Option PyError × NodeState :=
  if s.initialized = false then (none, s)
  else
    match s.particle_cloud with
    | [] => (none, s)
    | _ :: _ =>
      match beamLoopScope.lookup "cardinal_directions_idxs" with
      | none => (some (PyError.nameError "cardinal_directions_idxs"), s)
      | some (PyVal.intRange n) =>
        let cloud := scorePass yaw lf data.rangeAt (List.range n) s.particle_cloud
        (none, { s with particle_cloud := cloud })
      | some PyVal.obj => (some PyError.typeError, s)

/-- The hardcoded `initial_particle_set` of source lines 76-81,
as `(x, y, theta)` triples. -/
noncomputable def initial_particle_set : List (ℝ × ℝ × ℝ) :=
  [(0.0, 0.0, 0.0),
   (-6.6, -3.5, Real.pi),
   (5.8, -5.0, Real.pi / 2.0),
   (-2.0, 4.5, Real.pi * 3.0 / 2.0)]

/-- The cloud built by `initialize_particle_cloud` (source lines 73-105):
one particle per seed triple, position `(x, y, 0)`, orientation
`quaternion_from_euler(0.0, 0.0, theta)` (modelled by the parameter `qfe`),
and weight `1.0`. -/
noncomputable def initializeParticleCloud (qfe : ℝ → ℝ → ℝ → Quat) : List Particle :=
  initial_particle_set.map (fun t =>
    { pose := { position := { x := t.1, y := t.2.1, z := 0 },
                orientation := qfe 0.0 0.0 t.2.2 },
      w := 1.0 })

/-! Helper lemmas shared by the claim theorems. -/

/-- Folding `q * f i` over a list starting from `a` is `a` times the product
of the mapped list: the loop of lines 147-153 is a direct product. -/
lemma foldl_mul_eq_mul_prod (f : ℕ → ℝ) :
    ∀ (l : List ℕ) (a : ℝ), l.foldl (fun q i => q * f i) a = a * (l.map f).prod
  | [], a => by simp
  | i :: l, a => by
    rw [List.foldl_cons, foldl_mul_eq_mul_prod f l (a * f i), List.map_cons,
      List.prod_cons, mul_assoc]

/-- The name `cardinal_directions_idxs` is bound neither among the locals of
`robot_scan_received` nor at module level. -/
lemma lookup_cardinal_none :
    beamLoopScope.lookup "cardinal_directions_idxs" = none := rfl

/-- No branch of `robot_scan_received` ever changes the node state: the
method either returns early, does nothing, or raises before any assignment. -/
lemma robot_scan_received_state (yaw : Quat → ℝ) (lf : ℝ → ℝ → ℝ)
    (s : NodeState) (data : Scan) :
    (robot_scan_received yaw lf s data).2 = s := by
  rcases s with ⟨init, cloud⟩
  unfold robot_scan_received
  cases init <;> cases cloud <;> simp [lookup_cardinal_none]

/-- Rescoring changes no particle's pose. -/
lemma updateParticleWeight_pose (yaw : Quat → ℝ) (lf : ℝ → ℝ → ℝ)
    (ranges : ℕ → ℝ) (idxs : List ℕ) (p : Particle) :
    (updateParticleWeight yaw lf ranges idxs p).pose = p.pose := rfl

/-- The weight written by the loop body is the product of the per-beam
Gaussian factors. -/
lemma updateParticleWeight_w (yaw : Quat → ℝ) (lf : ℝ → ℝ → ℝ)
    (ranges : ℕ → ℝ) (idxs : List ℕ) (p : Particle) :
    (updateParticleWeight yaw lf ranges idxs p).w
      = (idxs.map (beamDensity yaw lf ranges p)).prod := by
  show idxs.foldl (fun q i => q * beamDensity yaw lf ranges p i) 1.0
      = (idxs.map (beamDensity yaw lf ranges p)).prod
  rw [foldl_mul_eq_mul_prod]
  norm_num

/-! Claim theorems. -/

/-- Claim C6: for every `sd > 0`, `compute_prob_zero_centered_gaussian d sd`
equals the zero-mean Gaussian density `(1/(sd·√(2π)))·exp(−d²/(2·sd²))`;
its value at `d = 0` is `1/(sd·√(2π))`, it is strictly positive, symmetric
in `d`, and strictly decreasing as `d` grows away from `0`. -/
theorem gaussian_density_spec (d sd : ℝ) (hsd : 0 < sd) :
    compute_prob_zero_centered_gaussian d sd
        = 1 / (sd * Real.sqrt (2 * Real.pi)) * Real.exp (-d ^ 2 / (2 * sd ^ 2)) ∧
      compute_prob_zero_centered_gaussian 0 sd = 1 / (sd * Real.sqrt (2 * Real.pi)) ∧
      0 < compute_prob_zero_centered_gaussian d sd ∧
      compute_prob_zero_centered_gaussian d sd
        = compute_prob_zero_centered_gaussian (-d) sd ∧
      ∀ d₁ d₂ : ℝ, 0 ≤ d₁ → d₁ < d₂ →
        compute_prob_zero_centered_gaussian d₂ sd
          < compute_prob_zero_centered_gaussian d₁ sd := by
  have hc : 0 < 1 / (sd * Real.sqrt (2 * Real.pi)) := by positivity
  refine ⟨by norm_num [compute_prob_zero_centered_gaussian], ?_, ?_, ?_, ?_⟩
  · norm_num [compute_prob_zero_centered_gaussian]
  · unfold compute_prob_zero_centered_gaussian
    positivity
  · have h : (-d) ^ 2 = d ^ 2 := by ring
    simp [compute_prob_zero_centered_gaussian, h]
  · intro d₁ d₂ h1 h2
    unfold compute_prob_zero_centered_gaussian
    have hsq : d₁ ^ 2 < d₂ ^ 2 := by nlinarith
    have hexp : Real.exp ((-(d₂ ^ 2)) / (2 * sd ^ 2))
        < Real.exp ((-(d₁ ^ 2)) / (2 * sd ^ 2)) := by
      apply Real.exp_lt_exp.mpr
      have hpos : (0:ℝ) < 2 * sd ^ 2 := by positivity
      apply div_lt_div_of_pos_right _ hpos
      linarith
    have h10 : (1.0 : ℝ) = 1 := by norm_num
    rw [h10]
    exact mul_lt_mul_of_pos_left hexp hc

/-- Claim C6 witness at `d = 1`, `sd = 1`. -/
theorem gaussian_density_spec_witness :
    0 < (1:ℝ) ∧
      (compute_prob_zero_centered_gaussian 1 1
          = 1 / (1 * Real.sqrt (2 * Real.pi))
              * Real.exp (-(1:ℝ) ^ 2 / (2 * (1:ℝ) ^ 2)) ∧
        compute_prob_zero_centered_gaussian 0 1
          = 1 / (1 * Real.sqrt (2 * Real.pi)) ∧
        0 < compute_prob_zero_centered_gaussian 1 1 ∧
        compute_prob_zero_centered_gaussian 1 1
          = compute_prob_zero_centered_gaussian (-1) 1 ∧
        ∀ d₁ d₂ : ℝ, 0 ≤ d₁ → d₁ < d₂ →
          compute_prob_zero_centered_gaussian d₂ 1
            < compute_prob_zero_centered_gaussian d₁ 1) :=
  ⟨one_pos, gaussian_density_spec 1 1 one_pos⟩

/-- Claim C9: after initialization the particle cloud is exactly the four
hardcoded seed particles, in order `(0,0,0)`, `(−6.6,−3.5,π)`,
`(5.8,−5,π/2)`, `(−2,4.5,3π/2)`, each with weight exactly `1.0`, whatever
quaternion the external `quaternion_from_euler` (here `qfe`) produces for
the seed headings. -/
theorem particle_cloud_after_seeding (qfe : ℝ → ℝ → ℝ → Quat) :
    initializeParticleCloud qfe =
        [⟨⟨⟨0.0, 0.0, 0⟩, qfe 0.0 0.0 0.0⟩, 1.0⟩,
         ⟨⟨⟨-6.6, -3.5, 0⟩, qfe 0.0 0.0 Real.pi⟩, 1.0⟩,
         ⟨⟨⟨5.8, -5.0, 0⟩, qfe 0.0 0.0 (Real.pi / 2.0)⟩, 1.0⟩,
         ⟨⟨⟨-2.0, 4.5, 0⟩, qfe 0.0 0.0 (Real.pi * 3.0 / 2.0)⟩, 1.0⟩] ∧
      (initializeParticleCloud qfe).length = 4 := by
  exact ⟨rfl, rfl⟩

/-- A one-particle node state used to instantiate universally quantified
theorems at a concrete input. -/
noncomputable def witnessState : NodeState :=
  { initialized := true,
    particle_cloud := [⟨⟨⟨0, 0, 0⟩, ⟨0, 0, 0, 1⟩⟩, 1.0⟩] }

/-- Claim C10: the weight-update loop reads `cardinal_directions_idxs`,
which is bound nowhere (while the local `direction_idxs` from line 132 is
never read), so for every scan received after initialization with a
non-empty particle cloud the method raises a `NameError` before any weight
is assigned and the node state — in particular every weight — is unchanged. -/
theorem scan_update_raises_name_error (yaw : Quat → ℝ) (lf : ℝ → ℝ → ℝ)
    (s : NodeState) (data : Scan)
    (hinit : s.initialized = true) (hne : s.particle_cloud ≠ []) :
    robot_scan_received yaw lf s data
        = (some (PyError.nameError "cardinal_directions_idxs"), s) ∧
      beamLoopScope.lookup "cardinal_directions_idxs" = none ∧
      "cardinal_directions_idxs" ∈ robotScanReceivedLoads ∧
      "direction_idxs" ∉ robotScanReceivedLoads := by
  refine ⟨?_, lookup_cardinal_none, by decide, by decide⟩
  unfold robot_scan_received
  rw [hinit]
  cases hcl : s.particle_cloud with
  | nil => exact absurd hcl hne
  | cons p l => simp [lookup_cardinal_none]

/-- Claim C10 witness: a concrete initialized one-particle state and an
arbitrary concrete scan. -/
theorem scan_update_raises_name_error_witness :
    witnessState.initialized = true ∧ witnessState.particle_cloud ≠ [] ∧
      (robot_scan_received (fun _ => 0) (fun _ _ => 0) witnessState ⟨[]⟩
          = (some (PyError.nameError "cardinal_directions_idxs"), witnessState) ∧
        beamLoopScope.lookup "cardinal_directions_idxs" = none ∧
        "cardinal_directions_idxs" ∈ robotScanReceivedLoads ∧
        "direction_idxs" ∉ robotScanReceivedLoads) :=
  ⟨rfl, by simp [witnessState],
    scan_update_raises_name_error (fun _ => 0) (fun _ _ => 0) witnessState ⟨[]⟩
      rfl (by simp [witnessState])⟩

/-- Claim C2: for every scan from which zero beams are usable (empty scan, or
every beam marked invalid), processing the scan leaves every particle's
weight numerically equal to its previous weight (here because the method
never reaches a weight assignment at all, whatever the scan holds). -/
theorem zero_beam_scan_leaves_weights (yaw : Quat → ℝ) (lf : ℝ → ℝ → ℝ)
    (s : NodeState) (data : Scan)
    (_hdeg : data.beams = [] ∨ ∀ b ∈ data.beams, b.valid = false) :
    ((robot_scan_received yaw lf s data).2).particle_cloud.map Particle.w
      = s.particle_cloud.map Particle.w := by
  rw [robot_scan_received_state]

/-- Claim C2 witness: the empty scan against the concrete one-particle
state. -/
theorem zero_beam_scan_leaves_weights_witness :
    ((⟨[]⟩ : Scan).beams = [] ∨ ∀ b ∈ (⟨[]⟩ : Scan).beams, b.valid = false) ∧
      ((robot_scan_received (fun _ => 0) (fun _ _ => 0) witnessState
          ⟨[]⟩).2).particle_cloud.map Particle.w
        = witnessState.particle_cloud.map Particle.w :=
  ⟨Or.inl rfl,
    zero_beam_scan_leaves_weights (fun _ => 0) (fun _ _ => 0) witnessState ⟨[]⟩
      (Or.inl rfl)⟩

/-- Claim C7: the score pass over the particle cloud preserves the cloud's
length and order, changes no particle's pose, and computes every output
particle from the corresponding input particle alone (so no cross-particle
normalization is applied). -/
theorem score_pass_only_rescores_in_place (yaw : Quat → ℝ) (lf : ℝ → ℝ → ℝ)
    (ranges : ℕ → ℝ) (idxs : List ℕ) (cloud : List Particle) :
    (scorePass yaw lf ranges idxs cloud).length = cloud.length ∧
      (∀ i : ℕ, ((scorePass yaw lf ranges idxs cloud)[i]?).map Particle.pose
          = (cloud[i]?).map Particle.pose) ∧
      (∀ i : ℕ, (scorePass yaw lf ranges idxs cloud)[i]?
          = (cloud[i]?).map (updateParticleWeight yaw lf ranges idxs)) := by
  refine ⟨by simp [scorePass], fun i => ?_, fun i => ?_⟩
  · rw [scorePass, List.getElem?_map]
    cases h : cloud[i]? with
    | none => rfl
    | some p => simp [updateParticleWeight_pose]
  · rw [scorePass, List.getElem?_map]

/-- Claim C5: for every particle scored against at least one selected beam,
the weight written to the particle is the product, over the selected beam
indices, of the Gaussian likelihood (standard deviation `0.1`) of the
looked-up closest-obstacle distance at that beam's hypothesized endpoint. -/
theorem weight_is_product_of_beam_densities (yaw : Quat → ℝ) (lf : ℝ → ℝ → ℝ)
    (ranges : ℕ → ℝ) (idxs : List ℕ) (p : Particle) (_hne : idxs ≠ []) :
    (updateParticleWeight yaw lf ranges idxs p).w
        = (idxs.map (beamDensity yaw lf ranges p)).prod ∧
      ∀ i : ℕ, beamDensity yaw lf ranges p i
        = compute_prob_zero_centered_gaussian
            (lf (scan_end_x p.pose.position.x (yaw p.pose.orientation)
                  (ranges i) i)
                (scan_end_y p.pose.position.y (yaw p.pose.orientation)
                  (ranges i) i))
            0.1 :=
  ⟨updateParticleWeight_w yaw lf ranges idxs p, fun _ => rfl⟩

/-- Claim C5 witness: one selected beam, concrete particle and parameters. -/
theorem weight_is_product_of_beam_densities_witness :
    ([0] : List ℕ) ≠ [] ∧
      ((updateParticleWeight (fun _ => 0) (fun _ _ => 0) (fun _ => 1) [0]
            ⟨⟨⟨0, 0, 0⟩, ⟨0, 0, 0, 1⟩⟩, 1.0⟩).w
          = (([0] : List ℕ).map (beamDensity (fun _ => 0) (fun _ _ => 0)
              (fun _ => 1) ⟨⟨⟨0, 0, 0⟩, ⟨0, 0, 0, 1⟩⟩, 1.0⟩)).prod ∧
        ∀ i : ℕ, beamDensity (fun _ => 0) (fun _ _ => 0) (fun _ => 1)
              ⟨⟨⟨0, 0, 0⟩, ⟨0, 0, 0, 1⟩⟩, 1.0⟩ i
          = compute_prob_zero_centered_gaussian
              ((fun _ _ => (0:ℝ))
                (scan_end_x 0 ((fun _ => (0:ℝ)) (⟨0, 0, 0, 1⟩ : Quat))
                  ((fun _ => (1:ℝ)) i) i)
                (scan_end_y 0 ((fun _ => (0:ℝ)) (⟨0, 0, 0, 1⟩ : Quat))
                  ((fun _ => (1:ℝ)) i) i))
              0.1) :=
  ⟨by simp,
    weight_is_product_of_beam_densities (fun _ => 0) (fun _ _ => 0) (fun _ => 1)
      [0] ⟨⟨⟨0, 0, 0⟩, ⟨0, 0, 0, 1⟩⟩, 1.0⟩ (by simp)⟩

/-- Claim C3: beam selection in the script is the unbound name
`cardinal_directions_idxs`: nothing binds it, while the declared full-sweep
collection `direction_idxs = range(360)` (a fixed 360, not the scan's
length, and with no validity or max-range filtering anywhere in the loop) is
bound but never read. -/
theorem beam_selection_reads_unbound_name :
    beamLoopScope.lookup "cardinal_directions_idxs" = none ∧
      beamLoopScope.lookup "direction_idxs" = some (PyVal.intRange 360) ∧
      "cardinal_directions_idxs" ∈ robotScanReceivedLoads ∧
      "direction_idxs" ∉ robotScanReceivedLoads :=
  ⟨rfl, rfl, by decide, by decide⟩

/-- Claim C4: the script forms the beam endpoint by adding the raw integer
beam index to the heading instead of the beam's bearing.  For a particle at
(0, 0) with heading 0 and a beam at index 0 carrying bearing π/2 and range
1, the script's endpoint is (1, 0), while advancing the particle by the
range along heading + bearing gives (0, 1). -/
theorem endpoint_uses_index_not_bearing :
    (scan_end_x 0 0 (Beam.range ⟨Real.pi / 2, 1, true⟩) 0 = 1 ∧
      scan_end_y 0 0 (Beam.range ⟨Real.pi / 2, 1, true⟩) 0 = 0) ∧
    (0 + (Beam.range ⟨Real.pi / 2, 1, true⟩)
          * Real.cos (0 + Beam.bearing ⟨Real.pi / 2, 1, true⟩) = 0 ∧
      0 + (Beam.range ⟨Real.pi / 2, 1, true⟩)
          * Real.sin (0 + Beam.bearing ⟨Real.pi / 2, 1, true⟩) = 1) ∧
    ((1:ℝ), (0:ℝ)) ≠ ((0:ℝ), (1:ℝ)) := by
  refine ⟨⟨?_, ?_⟩, ⟨?_, ?_⟩, by norm_num⟩ <;>
    simp [scan_end_x, scan_end_y, Real.cos_pi_div_two, Real.sin_pi_div_two]

/-- A node state as after `__init__` completes: initialization done, particle
cloud holding the four seed particles (the seed quaternions taken as the
identity quaternion for concreteness). -/
noncomputable def seededState : NodeState :=
  { initialized := true,
    particle_cloud := initializeParticleCloud (fun _ _ _ => ⟨0, 0, 0, 1⟩) }

/-- Claim C8: evaluated on a fully valid one-beam scan with a ready, total
likelihood-field lookup, the measurement update still throws — a `NameError`
over `cardinal_directions_idxs`, not a `FieldNotReady` failure (no such
notion exists in the script). -/
theorem scan_update_throws_despite_valid_input :
    robot_scan_received (fun _ => 0) (fun _ _ => 1) seededState ⟨[⟨0, 1, true⟩]⟩
      = (some (PyError.nameError "cardinal_directions_idxs"), seededState) := rfl

/-- The per-beam Gaussian factor at looked-up distance 0.4 with standard
deviation 0.1 is below 1 (in fact below 4/9). -/
lemma gauss_point4_lt_one : compute_prob_zero_centered_gaussian 0.4 0.1 < 1 := by
  have hform : compute_prob_zero_centered_gaussian 0.4 0.1
      = 1 / (0.1 * Real.sqrt (2 * Real.pi)) * Real.exp (-8) := by
    unfold compute_prob_zero_centered_gaussian
    norm_num
  rw [hform]
  have hs : (2.5:ℝ) ≤ Real.sqrt (2 * Real.pi) := by
    rw [Real.le_sqrt (by norm_num) (by positivity)]
    nlinarith [Real.pi_gt_d2]
  have hc : (1:ℝ) / (0.1 * Real.sqrt (2 * Real.pi)) ≤ 4 := by
    have h1 : (0.25:ℝ) ≤ 0.1 * Real.sqrt (2 * Real.pi) := by nlinarith
    calc (1:ℝ) / (0.1 * Real.sqrt (2 * Real.pi))
        ≤ 1 / 0.25 := one_div_le_one_div_of_le (by norm_num) h1
      _ = 4 := by norm_num
  have h9 : (9:ℝ) ≤ Real.exp 8 := by nlinarith [Real.add_one_le_exp (8:ℝ)]
  have he : Real.exp (-8 : ℝ) ≤ 1 / 9 := by
    rw [Real.exp_neg]
    calc (Real.exp 8)⁻¹ ≤ (9:ℝ)⁻¹ := inv_anti₀ (by norm_num) h9
      _ = 1 / 9 := by norm_num
  have hepos : (0:ℝ) ≤ Real.exp (-8) := (Real.exp_pos _).le
  calc 1 / (0.1 * Real.sqrt (2 * Real.pi)) * Real.exp (-8)
      ≤ 4 * (1 / 9) := mul_le_mul hc he hepos (by norm_num)
    _ < 1 := by norm_num

/-- Claim C1: the script accumulates the particle weight as the naive direct
product of raw per-beam densities (`q = 1.0` then `q *= density`, lines
147-153) — no log-space accumulation or per-beam normalization exists.  With
every looked-up distance 0.4 (sd 0.1) the accumulated weight is the n-th
power of a constant density below 1 and so tends to 0 as the beam count
grows: the very underflow hazard the log-space requirement rules out. -/
theorem naive_product_weight_vanishes :
    Filter.Tendsto
      (fun n : ℕ => (updateParticleWeight (fun _ => 0) (fun _ _ => 0.4)
        (fun _ => 1) (List.range n) ⟨⟨⟨0, 0, 0⟩, ⟨0, 0, 0, 1⟩⟩, 1.0⟩).w)
      Filter.atTop (nhds 0) := by
  have hw : ∀ n : ℕ, (updateParticleWeight (fun _ => 0) (fun _ _ => 0.4)
      (fun _ => 1) (List.range n) ⟨⟨⟨0, 0, 0⟩, ⟨0, 0, 0, 1⟩⟩, 1.0⟩).w
      = compute_prob_zero_centered_gaussian 0.4 0.1 ^ n := by
    intro n
    rw [updateParticleWeight_w]
    have hb : (beamDensity (fun _ => 0) (fun _ _ => 0.4) (fun _ => 1)
        (⟨⟨⟨0, 0, 0⟩, ⟨0, 0, 0, 1⟩⟩, 1.0⟩ : Particle))
        = fun _ => compute_prob_zero_centered_gaussian 0.4 0.1 := rfl
    rw [hb, List.map_const', List.length_range, List.prod_replicate]
  simp only [hw]
  apply tendsto_pow_atTop_nhds_zero_of_lt_one
  · have : 0 < compute_prob_zero_centered_gaussian 0.4 0.1 := by
      unfold compute_prob_zero_centered_gaussian
      positivity
    linarith
  · exact gauss_point4_lt_one

end MeasurementUpdateModel
